import Mathlib

/-!
Verification of the ISECNet protocol engine of the guardian-api gateway.

The definitions below are a shallow embedding of the Python source:
bytes are `Nat` (masked with `&&& 0xFF` where the source masks),
byte strings are `List Nat`, fallible parsing returns flags exactly as
the source does, and the stateful protocol session is modelled by
explicit state passing with the peer's replies supplied as values
(`none` = no frame received before the timeout, or a socket error).
-/

namespace Guardian

/-! ## Frame codec (`isecnet_protocol.py`) -/

/-- `ISECNetProtocol._checksum`: XOR of all bytes, then XOR-inverted with 0xFF. -/
def checksum (data : List Nat) : Nat :=
  (data.foldl (fun a b => a ^^^ b) 0) ^^^ 0xFF

/-- `ISECNetProtocol._to_two_bytes`: big-endian 2-byte encoding. -/
def toTwoBytes (value : Nat) : List Nat :=
  [(value >>> 8) &&& 0xFF, value &&& 0xFF]

/-- `ISECNetProtocol._from_two_bytes`: big-endian 2-byte decoding. -/
def fromTwoBytes (a b : Nat) : Nat :=
  ((a &&& 0xFF) <<< 8) ||| (b &&& 0xFF)

/-- `ISECNetProtocol._build_packet`: V2 packet
`[dest 2][source 2][size 2][command 2][payload][checksum]`, optionally
XOR-obfuscated with `encryptByte`. -/
def buildPacket (sourceId : List Nat) (command : Nat) (payload : List Nat)
    (encryptByte : Option Nat := none) : List Nat :=
  let cmdPayload := toTwoBytes command ++ payload
  let packet := [0, 0] ++ sourceId ++ toTwoBytes cmdPayload.length ++ cmdPayload
  let packet := packet ++ [checksum packet]
  match encryptByte with
  | none => packet
  | some e => packet.map (fun b => b ^^^ e)

/-- Password digit encoding used by `_build_auth_cmd`: each decimal
character becomes its value, except `'0'` which becomes 10. -/
def digitVal (c : Char) : Nat :=
  if c = '0' then 10 else c.toNat - 48

/-- The packed password of `_build_auth_cmd`: map every character through
`digitVal` and right-pad with zeros until the length reaches 6. -/
def packPassword (password : String) : List Nat :=
  let ds := password.data.map digitVal
  ds ++ List.replicate (6 - ds.length) 0

/-- The AUTHORIZE payload of `_build_auth_cmd`:
`[0x03] ++ packed password ++ software version (2 bytes big endian)`. -/
def buildAuthPayload (password : String) : List Nat :=
  [0x03] ++ packPassword password ++ toTwoBytes 1

/-- `_build_auth_cmd` (cloud path, no encryption byte). -/
def buildAuthCmd (sourceId : List Nat) (password : String) : List Nat :=
  buildPacket sourceId 0xF0F0 (buildAuthPayload password)

/-! ## ISECNet V1 frame building -/

/-- `ISECNetProtocol._build_isecv1_cmd`:
`[size][0xE9][0x21][password ascii][command bytes][0x21][checksum]`
with `size = |command| + |password| + 3`. -/
def buildIsecV1Cmd (command : List Nat) (password : String) : List Nat :=
  let size := command.length + password.length + 3
  let packet := [size, 0xE9, 0x21] ++ password.data.map Char.toNat
      ++ command ++ [0x21]
  packet ++ [checksum packet]

/-- The command-byte list assembled by `_build_isecv1_arm_cmd`:
`0x41 ('A')`, then the partition letter `0x41 + index` when a partition
is supplied and partition inclusion is on, then `0x50 ('P')` when `stay`. -/
def v1ArmCommandBytes (partitionIndex : Option Nat) (stay : Bool)
    (includePartition : Bool) : List Nat :=
  [0x41]
    ++ (if includePartition then
          match partitionIndex with
          | some i => [0x41 + i]
          | none => []
        else [])
    ++ (if stay then [0x50] else [])

/-- `ISECNetProtocol._build_isecv1_arm_cmd`. -/
def buildIsecV1ArmCmd (password : String) (partitionIndex : Option Nat)
    (stay : Bool) (includePartition : Bool := true) : List Nat :=
  buildIsecV1Cmd (v1ArmCommandBytes partitionIndex stay includePartition) password

/-- The command-byte list assembled by `_build_isecv1_disarm_cmd`:
`0x44 ('D')`, then the partition letter when a partition is supplied. -/
def v1DisarmCommandBytes (partitionIndex : Option Nat) : List Nat :=
  [0x44]
    ++ (match partitionIndex with
        | some i => [0x41 + i]
        | none => [])

/-- `ISECNetProtocol._build_isecv1_disarm_cmd`. -/
def buildIsecV1DisarmCmd (password : String) (partitionIndex : Option Nat) :
    List Nat :=
  buildIsecV1Cmd (v1DisarmCommandBytes partitionIndex) password

/-- `ISECNetProtocol._build_isecv1_status_cmd`: GET_PARTIAL_STATUS = 0x5A. -/
def buildIsecV1StatusCmd (password : String) : List Nat :=
  buildIsecV1Cmd [0x5A] password

/-! ## Theorems for the codec claims -/

/-- C6: for every password of at most 6 decimal characters, the packed
password used in the V2 AUTHORIZE payload maps each character through
`digitVal` ('1'..'9' to 1..9, '0' to 10) and right-pads with zeros to
length 6; in particular the three concrete examples of the spec hold, and
the packed password sits in the AUTHORIZE payload after the 0x03 marker. -/
theorem packPassword_spec (s : String) (h6 : s.length ≤ 6) :
    packPassword s = s.data.map digitVal ++ List.replicate (6 - s.length) 0
    ∧ (packPassword s).length = 6
    ∧ (∀ d : Nat, 1 ≤ d → d ≤ 9 → digitVal (Char.ofNat (48 + d)) = d)
    ∧ digitVal '0' = 10
    ∧ packPassword "1234" = [1, 2, 3, 4, 0, 0]
    ∧ packPassword "0000" = [10, 10, 10, 10, 0, 0]
    ∧ packPassword "123456" = [1, 2, 3, 4, 5, 6]
    ∧ buildAuthPayload s = [0x03] ++ packPassword s ++ [0, 1] := by
  have hlen : (s.data.map digitVal).length = s.length := by
    rw [List.length_map]; rfl
  refine ⟨?_, ?_, ?_, rfl, by decide, by decide, by decide, rfl⟩
  · simp only [packPassword, hlen]
  · simp only [packPassword, List.length_append, hlen, List.length_replicate]
    omega
  · intro d h1 h9
    interval_cases d <;> decide

/-- Witness for C6 at the concrete password "1234". -/
theorem packPassword_spec_witness :
    packPassword "1234"
      = "1234".data.map digitVal ++ List.replicate (6 - "1234".length) 0 := by
  exact (packPassword_spec "1234" (by decide)).1

/-- C9 counterexample: the claim says `|encode_v1(cmd, pwd)| = 3 + |pwd| + |cmd|`,
but for `cmd = [0x5A]` and `pwd = "1234"` the encoder produces 10 bytes
while the claim predicts 8. -/
theorem buildIsecV1Cmd_length_claim_false :
    (buildIsecV1Cmd [0x5A] "1234").length = 10
    ∧ 3 + "1234".length + 1 = 8 := by
  constructor
  · rfl
  · rfl

/-- C9 amended: for every command byte list and password, the encoded V1
frame has total length `5 + |pwd| + |cmd|` — the size byte, the two header
bytes 0xE9 0x21, the password and command body, the 0x21 trailer, and the
checksum; the size *field* (which excludes the size byte and checksum)
equals `3 + |pwd| + |cmd|`. -/
theorem buildIsecV1Cmd_length (cmd : List Nat) (pwd : String) :
    (buildIsecV1Cmd cmd pwd).length = 5 + pwd.length + cmd.length
    ∧ (buildIsecV1Cmd cmd pwd).headI = cmd.length + pwd.length + 3 := by
  have hlen : pwd.data.length = pwd.length := rfl
  constructor
  · simp [buildIsecV1Cmd, hlen]
    omega
  · simp [buildIsecV1Cmd]

/-! ## ISECNet V1 command-response classification -/

/-- The response-message table of `_parse_isecv1_command_response`:
`some (message, success)` for the codes listed in the source, `none`
for every other byte value. -/
def v1ResponseMessage (code : Nat) : Option (String × Bool) :=
  match code with
  | 254 => some ("OK", true)
  | 0 => some ("Unknown error", false)
  | 224 => some ("Invalid package", false)
  | 225 => some ("Incorrect password", false)
  | 226 => some ("Invalid command", false)
  | 227 => some ("No partitions", false)
  | 228 => some ("Open zones", false)
  | 229 => some ("Command deprecated", false)
  | 255 => some ("Invalid model", false)
  | 230 => some ("Bypass denied", false)
  | 231 => some ("Deactivation denied", false)
  | 232 => some ("Bypass - central activated", false)
  | _ => none

/-- `ISECNetProtocol._parse_isecv1_command_response`: 46-byte and ≥ 96-byte
responses are success (status dumps); shorter responses are classified by
byte 2 through the table, with unknown codes assumed to be success. -/
def parseIsecV1CommandResponse (response : List Nat) : Bool × String :=
  if response.length < 2 then (false, "No response")
  else if response.length = 46 then (true, "OK")
  else if 96 ≤ response.length then (true, "OK")
  else if 3 ≤ response.length then
    match v1ResponseMessage (response.getD 2 0) with
    | some (message, success) => (success, message)
    | none => (true, "OK")
  else (false, "Invalid response")

/-- The eleven failure codes of the V1 response table. -/
def v1FailureCodes : List Nat :=
  [0, 224, 225, 226, 227, 228, 229, 230, 231, 232, 255]

/-- C4 counterexample: byte 2 = 0x01 is outside the table, yet the
3-byte response `[0, 0, 1]` is classified as success — refuting the
claim that no byte-2 value outside the table is classified as success. -/
theorem parseIsecV1CommandResponse_claim_false :
    v1ResponseMessage 1 = none
    ∧ (parseIsecV1CommandResponse [0, 0, 1]).1 = true := by
  constructor
  · rfl
  · rfl

/-- C4 amended: responses of length exactly 46 or at least 96 are success;
otherwise (length ≥ 3) byte 2 decides per the table — 0xFE is success and
the eleven listed codes are failures — and any byte-2 value outside the
table is also classified as success; responses shorter than 3 bytes fail. -/
theorem parseIsecV1CommandResponse_spec (r : List Nat) :
    (r.length = 46 → parseIsecV1CommandResponse r = (true, "OK"))
    ∧ (96 ≤ r.length → parseIsecV1CommandResponse r = (true, "OK"))
    ∧ (3 ≤ r.length → r.length ≠ 46 → r.length < 96 →
        ((parseIsecV1CommandResponse r).1 = true ↔ r.getD 2 0 ∉ v1FailureCodes))
    ∧ (r.length < 3 → (parseIsecV1CommandResponse r).1 = false) := by
  have key : ∀ c : Nat,
      ((match v1ResponseMessage c with
        | some (message, success) => (success, message)
        | none => (true, "OK")) : Bool × String).1 = true ↔ c ∉ v1FailureCodes := by
    intro c
    unfold v1ResponseMessage
    split <;> (rename_i heq; split at heq <;> simp_all [v1FailureCodes])
  refine ⟨?_, ?_, ?_, ?_⟩
  · intro h46
    simp [parseIsecV1CommandResponse, h46]
  · intro h96
    have h46 : ¬ r.length = 46 := by omega
    have h2 : ¬ r.length < 2 := by omega
    simp [parseIsecV1CommandResponse, h2, h46, h96]
  · intro h3 h46 h96
    have h2 : ¬ r.length < 2 := by omega
    have h96' : ¬ 96 ≤ r.length := by omega
    simp only [parseIsecV1CommandResponse, if_neg h2, if_neg h46, if_neg h96',
      if_pos h3]
    exact key (r.getD 2 0)
  · intro h3
    rcases Nat.lt_or_ge r.length 2 with h | h
    · simp [parseIsecV1CommandResponse, h]
    · have h2 : ¬ r.length < 2 := by omega
      have h46 : r.length ≠ 46 := by omega
      have h96 : ¬ 96 ≤ r.length := by omega
      have h3' : ¬ 3 ≤ r.length := by omega
      simp [parseIsecV1CommandResponse, h2, h46, h96, h3']

/-- Witness for C4 amended at the concrete error response `[0, 0, 0xE3]`. -/
theorem parseIsecV1CommandResponse_spec_witness :
    (parseIsecV1CommandResponse [0, 0, 0xE3]).1 = true ↔
      (227 : Nat) ∉ v1FailureCodes := by
  exact (parseIsecV1CommandResponse_spec [0, 0, 0xE3]).2.2.1
    (by decide) (by decide) (by decide)

/-! ## ISECNet V1 response and status parsing -/

/-- `ISECNetProtocol._parse_isecv1_response`: strip the size byte and
checksum and return the data bytes.  A response shorter than the size
field announces is still parsed best-effort (everything after the size
byte); the checksum is computed by the source only for a log warning and
has no effect on the result. -/
def parseIsecV1Response (response : List Nat) : Bool × List Nat :=
  if response.length < 2 then (false, [])
  else
    let size := response.getD 0 0
    let expectedLen := size + 2
    if response.length < expectedLen then
      if 2 ≤ response.length then (true, response.drop 1) else (false, [])
    else
      (true, (response.drop 1).take size)

/-- `_is_eletrificador_model`: ELC_6012_NET = 53 (0x35), ELC_6012_IND = 57. -/
def isEletrificadorModel (modelCode : Nat) : Bool :=
  modelCode == 53 || modelCode == 57

/-- `_parse_eletrificador_state`: bit 0 = enabled, bit 2 = triggered. -/
def parseEletrificadorState (statusByte : Nat) : Bool × Bool :=
  (statusByte &&& 0x01 != 0, statusByte &&& 0x04 != 0)

/-- `_parse_eletrificador_alarm_state`: bit 0 = armed, bit 1 = stay,
bit 2 or panic byte = 1 means triggered; result is (state, triggered). -/
def parseEletrificadorAlarmState (alarmByte panicByte : Nat) : String × Bool :=
  let isArmed := alarmByte &&& 0x01 != 0
  let isStay := alarmByte &&& 0x02 != 0
  let isTriggered := (alarmByte &&& 0x04 != 0) || (panicByte == 1)
  let state :=
    if !isArmed then "disarmed"
    else if isArmed && isStay then "armed_stay"
    else "armed_away"
  (state, isTriggered)

/-- `_get_max_partitions_for_model`: per-model partition cap, default 2. -/
def getMaxPartitionsForModel (modelCode : Nat) : Nat :=
  match modelCode with
  | 65 => 4    -- AMT_4010
  | 36 => 0    -- ANM_24_NET
  | 37 => 0    -- ANM_24_NET_G2
  | 1 => 16    -- AMT_8000
  | 2 => 16    -- AMT_8000_LITE
  | 3 => 16    -- AMT_8000_PRO
  | 144 => 8   -- AMT_9000
  | 54 => 0    -- AMT_1000_SMART
  | _ => 2

/-- Uppercase hexadecimal digit. -/
def hexDigit (n : Nat) : Char :=
  if n < 10 then Char.ofNat (48 + n) else Char.ofNat (55 + n)

/-- Two-digit uppercase hexadecimal rendering of a byte (Python `{:02X}`). -/
def hexByte02 (n : Nat) : String :=
  String.mk [hexDigit (n / 16 % 16), hexDigit (n % 16)]

/-- `_get_model_name`: model-code table with an UNKNOWN fallback. -/
def getModelName (modelCode : Nat) : String :=
  match modelCode with
  | 30 => "AMT_2018_E_EG"
  | 49 => "AMT_2016_E3G"
  | 50 => "AMT_2018_E3G"
  | 65 => "AMT_4010"
  | 97 => "AMT_1016_NET"
  | 46 => "AMT_2118_EG"
  | 36 => "ANM_24_NET"
  | 37 => "ANM_24_NET_G2"
  | 1 => "AMT_8000"
  | 3 => "AMT_8000_PRO"
  | 2 => "AMT_8000_LITE"
  | 52 => "AMT_2018_E_SMART"
  | 54 => "AMT_1000_SMART"
  | 53 => "ELC_6012_NET"
  | 57 => "ELC_6012_IND"
  | 144 => "AMT_9000"
  | c => "UNKNOWN_0x" ++ hexByte02 c

/-- A parsed partition entry (`partitions.append({...})` in the source). -/
structure Partition where
  index : Nat
  state : String
  armed : Bool
  total : Bool
deriving DecidableEq

/-- A parsed zone entry; `isOpen` embeds the source dict's "open" key. -/
structure Zone where
  index : Nat
  triggered : Bool
  isOpen : Bool
  state : String
deriving DecidableEq

/-- The `AlarmStatus` dataclass with its source defaults. -/
structure AlarmStatus where
  model : Option String := none
  mac : Option String := none
  isArmed : Bool := false
  armMode : String := "disarmed"
  isTriggered : Bool := false
  partitions : List Partition := []
  zones : List Zone := []
  partitionsEnabled : Bool := false
  isEletrificador : Bool := false
  shockEnabled : Bool := false
  shockTriggered : Bool := false
  alarmEnabled : Bool := false
  alarmTriggered : Bool := false
deriving DecidableEq

/-- The eletrificador branch of `_parse_isecv1_status_response` (data
bytes 21/22 are shock/alarm state, byte 38 the panic byte). -/
def parseV1FenceStatus (modelCode shockByte alarmByte panicByte : Nat) :
    AlarmStatus :=
  let shock := parseEletrificadorState shockByte
  let alarm := parseEletrificadorAlarmState alarmByte panicByte
  let alarmEnabled := alarm.1 != "disarmed"
  let armedPair : Bool × String :=
    if shock.1 || alarmEnabled then
      (true, if alarmEnabled then alarm.1 else "armed_away")
    else (false, "disarmed")
  { model := some (getModelName modelCode)
    isEletrificador := true
    shockEnabled := shock.1
    shockTriggered := shock.2
    alarmEnabled := alarmEnabled
    alarmTriggered := alarm.2
    isTriggered := shock.2 || alarm.2
    isArmed := armedPair.1
    armMode := armedPair.2 }

/-- The per-partition entry built inside the panel branch of
`_parse_isecv1_status_response` for partition `i` of status byte `psb`. -/
def v1PartitionEntry (psb i : Nat) : Partition :=
  let isArmed := psb &&& (1 <<< (i * 2)) != 0
  let isTotal := psb &&& (1 <<< (i * 2 + 1)) != 0
  let state :=
    if isArmed && isTotal then "armed_away"
    else if isArmed then "armed_stay"
    else "disarmed"
  { index := i, state := state, armed := isArmed, total := isTotal }

/-- The standard-panel branch of `_parse_isecv1_status_response`: byte 21
is `partitions_enabled`, byte 22 the per-partition bit pairs, byte 38
bit 7 the siren flag, bytes 1..6 the zone-open bitmap. -/
def parseV1PanelStatus (data : List Nat) : AlarmStatus :=
  let modelCode := data.getD 19 0
  let partitionEnabled := data.getD 21 0
  let psb := data.getD 22 0
  let numPartitions := getMaxPartitionsForModel modelCode
  let partitions := (List.range numPartitions).map (v1PartitionEntry psb)
  let armedAway := partitions.any (fun p => p.state == "armed_away")
  let armedStay := partitions.any (fun p => p.state == "armed_stay")
  let overall : Bool × String :=
    if partitions.isEmpty then (false, "disarmed")
    else if armedAway then (true, "armed_away")
    else if armedStay then (true, "armed_stay")
    else (false, "disarmed")
  let outputByte := data.getD 38 0
  let sirenActive := outputByte &&& 0x80 != 0
  let zones :=
    if 7 < data.length then
      (List.range 6).flatMap (fun byteIdx =>
        (List.range 8).map (fun bitIdx =>
          let isOpen := (data.getD (1 + byteIdx) 0) &&& (1 <<< bitIdx) != 0
          ({ index := byteIdx * 8 + bitIdx
             triggered := false
             isOpen := isOpen
             state := if isOpen then "open" else "closed" } : Zone)))
    else []
  { model := some (getModelName modelCode)
    partitionsEnabled := partitionEnabled != 0
    partitions := partitions
    isArmed := overall.1
    armMode := overall.2
    isTriggered := sirenActive
    zones := zones }

/-- `ISECNetProtocol._parse_isecv1_status_response`: parse a V1 partial
status reply into an `AlarmStatus`, dispatching on the model code between
the eletrificador layout and the standard panel layout. -/
def parseIsecV1StatusResponse (response : List Nat) : AlarmStatus :=
  let parsed := parseIsecV1Response response
  if !parsed.1 || parsed.2.length < 10 then {}
  else if parsed.2.length < 40 then {}
  else
    let data := parsed.2
    let modelCode := data.getD 19 0
    if isEletrificadorModel modelCode then
      parseV1FenceStatus modelCode (data.getD 21 0) (data.getD 22 0)
        (if 38 < data.length then data.getD 38 0 else 0)
    else
      parseV1PanelStatus data

/-- A byte's bit test written the way the source writes it
(`byte & (1 << k)` truthiness) agrees with `Nat.testBit`. -/
theorem and_one_shiftLeft_ne_zero (n k : Nat) :
    (n &&& (1 <<< k) != 0) = n.testBit k := by
  rw [Nat.one_shiftLeft, Nat.and_two_pow]
  cases h : n.testBit k <;> simp [h, Nat.pow_eq_zero]

/-- Evaluation of `parseIsecV1StatusResponse` once the reply has parsed
into at least 40 data bytes: the result is the fence branch or the panel
branch according to the model code. -/
theorem parseIsecV1StatusResponse_eq (r data : List Nat)
    (hp : parseIsecV1Response r = (true, data))
    (hlen : 40 ≤ data.length) :
    parseIsecV1StatusResponse r =
      if isEletrificadorModel (data.getD 19 0) then
        parseV1FenceStatus (data.getD 19 0) (data.getD 21 0) (data.getD 22 0)
          (if 38 < data.length then data.getD 38 0 else 0)
      else
        parseV1PanelStatus data := by
  have h10 : ¬ data.length < 10 := by omega
  have h40 : ¬ data.length < 40 := by omega
  simp only [parseIsecV1StatusResponse, hp, Bool.not_true, Bool.false_or]
  rw [if_neg, if_neg]
  · simpa using h40
  · simpa using h10

/-- C7: for every V1 partial-status reply from a non-fence model, partition
`i` (for `i` below the per-model cap) is decoded from bits `2i` and `2i+1`
of status data byte 22: `armed = bit(2i)`, `total = bit(2i+1)`, and the
state is disarmed when armed is clear, armed_away when armed and total,
armed_stay when armed and not total. -/
theorem v1_partition_bit_pairs (r data : List Nat)
    (hp : parseIsecV1Response r = (true, data))
    (hlen : 40 ≤ data.length)
    (hfence : isEletrificadorModel (data.getD 19 0) = false)
    (i : Nat) (hi : i < getMaxPartitionsForModel (data.getD 19 0)) :
    (parseIsecV1StatusResponse r).partitions.length
        = getMaxPartitionsForModel (data.getD 19 0)
    ∧ (parseIsecV1StatusResponse r).partitions.getD i ⟨0, "", false, false⟩
        = { index := i
            armed := (data.getD 22 0).testBit (2 * i)
            total := (data.getD 22 0).testBit (2 * i + 1)
            state := if (data.getD 22 0).testBit (2 * i) = false then "disarmed"
                     else if (data.getD 22 0).testBit (2 * i + 1) then "armed_away"
                     else "armed_stay" } := by
  have heq := parseIsecV1StatusResponse_eq r data hp hlen
  rw [hfence] at heq
  simp only [Bool.false_eq_true, if_false] at heq
  have hparts : (parseIsecV1StatusResponse r).partitions
      = (List.range (getMaxPartitionsForModel (data.getD 19 0))).map
          (v1PartitionEntry (data.getD 22 0)) := by
    rw [heq]
    rfl
  constructor
  · rw [hparts]
    simp
  · rw [hparts]
    have hi' : i < ((List.range (getMaxPartitionsForModel (data.getD 19 0))).map
        (v1PartitionEntry (data.getD 22 0))).length := by
      simpa using hi
    rw [List.getD_eq_getElem _ _ hi']
    simp only [List.getElem_map, List.getElem_range]
    have e1 : i * 2 = 2 * i := Nat.mul_comm i 2
    simp only [v1PartitionEntry, and_one_shiftLeft_ne_zero, e1]
    cases ha : (data.getD 22 0).testBit (2 * i) <;>
      cases ht : (data.getD 22 0).testBit (2 * i + 1) <;>
        simp [ha, ht]

/-- Concrete 46-byte V1 partial-status reply: model 0x34 (AMT_2018_E_SMART,
partition cap 2), partitions byte 0x07 (partition 0 armed+total,
partition 1 armed only). -/
def c7response : List Nat :=
  [44, 0xE9, 0] ++ List.replicate 17 0 ++ [0x34, 0, 1, 7] ++ List.replicate 22 0

/-- The data bytes of `c7response` (size byte and checksum stripped). -/
def c7data : List Nat := (c7response.drop 1).take 44

/-- Witness for C7 on `c7response` at partition index 1. -/
theorem v1_partition_bit_pairs_witness :
    40 ≤ c7data.length
    ∧ (parseIsecV1StatusResponse c7response).partitions.getD 1 ⟨0, "", false, false⟩
        = { index := 1, armed := true, total := false, state := "armed_stay" } := by
  refine ⟨by decide, ?_⟩
  have h := v1_partition_bit_pairs c7response c7data (by decide) (by decide)
    (by decide) 1 (by decide)
  rw [h.2]
  decide

/-- C8: for every valid V1 partial-status reply with model code 0x35,
status data byte 21 = 0x05, byte 22 = 0x01 and panic byte (data byte 38)
zero, parsing yields is_eletrificador, shock_enabled, shock_triggered and
alarm_enabled all true and alarm_triggered false. -/
theorem v1_fence_status (r data : List Nat)
    (hp : parseIsecV1Response r = (true, data))
    (hlen : 40 ≤ data.length)
    (hmodel : data.getD 19 0 = 0x35)
    (h21 : data.getD 21 0 = 0x05)
    (h22 : data.getD 22 0 = 0x01)
    (h38 : data.getD 38 0 = 0) :
    (parseIsecV1StatusResponse r).isEletrificador = true
    ∧ (parseIsecV1StatusResponse r).shockEnabled = true
    ∧ (parseIsecV1StatusResponse r).shockTriggered = true
    ∧ (parseIsecV1StatusResponse r).alarmEnabled = true
    ∧ (parseIsecV1StatusResponse r).alarmTriggered = false := by
  have h38' : 38 < data.length := by omega
  have heq := parseIsecV1StatusResponse_eq r data hp hlen
  rw [hmodel, h21, h22, if_pos h38', h38] at heq
  simp only [isEletrificadorModel] at heq
  rw [if_pos (by decide)] at heq
  rw [heq]
  decide

/-- Concrete 46-byte V1 partial-status reply from the fence model 0x35
with shock byte 0x05 and alarm byte 0x01. -/
def c8response : List Nat :=
  [44, 0xE9, 0] ++ List.replicate 17 0 ++ [0x35, 0, 5, 1] ++ List.replicate 22 0

/-- The data bytes of `c8response` (size byte and checksum stripped). -/
def c8data : List Nat := (c8response.drop 1).take 44

/-- Witness for C8 on `c8response`. -/
theorem v1_fence_status_witness :
    40 ≤ c8data.length
    ∧ (parseIsecV1StatusResponse c8response).isEletrificador = true
    ∧ (parseIsecV1StatusResponse c8response).shockEnabled = true
    ∧ (parseIsecV1StatusResponse c8response).shockTriggered = true
    ∧ (parseIsecV1StatusResponse c8response).alarmEnabled = true
    ∧ (parseIsecV1StatusResponse c8response).alarmTriggered = false := by
  refine ⟨by decide, ?_⟩
  exact v1_fence_status c8response c8data (by decide) (by decide) (by decide)
    (by decide) (by decide) (by decide)

/-! ## ISECNet V2 response parsing -/

/-- `ISECNetProtocol._parse_command_response`: NACK (0xF0FD) at bytes 6-7
is failure with the error code at byte 8; everything else (ACK or any
other frame, e.g. a status reply) is success. -/
def parseCommandResponse (response : List Nat) : Bool × Nat :=
  if response.length < 8 then (false, 0)
  else
    let cmd := fromTwoBytes (response.getD 6 0) (response.getD 7 0)
    if cmd == 0xF0FD then (false, response.getD 8 0)
    else (true, cmd)

/-- `_parse_partition_state`: V2 per-partition state byte. -/
def parsePartitionState (stateByte : Nat) : String :=
  if stateByte = 0 then "disarmed"
  else if stateByte = 1 then "armed_away"
  else if stateByte = 2 then "armed_stay"
  else if stateByte = 3 then "triggered"
  else "unknown"

/-- `ISECNetProtocol._parse_status_response` (V2/cloud).  The source's V2
partition entries are dicts holding only `index` and `state`; the
`armed`/`total` fields of `Partition` do not exist in those dicts and are
defaulted to `false` here. -/
def parseStatusResponse (response : List Nat) : AlarmStatus :=
  if response.length < 32 then {}
  else
    let modelCode := response.getD 8 0
    if isEletrificadorModel modelCode then
      if 31 < response.length then
        let shockByte := response.getD 30 0
        let alarmByte := response.getD 31 0
        let panicByte := if 70 < response.length then response.getD 70 0 else 0
        let shock := parseEletrificadorState shockByte
        let alarm := parseEletrificadorAlarmState alarmByte panicByte
        let alarmEnabled := alarm.1 != "disarmed"
        { model := some (getModelName modelCode)
          isEletrificador := true
          shockEnabled := shock.1
          shockTriggered := shock.2
          alarmEnabled := alarmEnabled
          alarmTriggered := alarm.2
          armMode := alarm.1
          isArmed := alarmEnabled
          isTriggered := shock.2 || alarm.2 }
      else
        { model := some (getModelName modelCode), isEletrificador := true }
    else if response.length < 144 then
      { model := some (getModelName modelCode) }
    else
      let partitionStates := (List.range 4).filterMap (fun i =>
        if 10 + i < response.length then
          some ({ index := i, state := parsePartitionState (response.getD (10 + i) 0)
                  armed := false, total := false } : Partition)
        else none)
      let overall : Bool × String :=
        match partitionStates with
        | [] => (false, "disarmed")
        | p :: _ => (p.state == "armed_away" || p.state == "armed_stay", p.state)
      let isTrig := if 14 < response.length then response.getD 14 0 != 0 else false
      { model := some (getModelName modelCode)
        partitions := partitionStates
        armMode := overall.2
        isArmed := overall.1
        isTriggered := isTrig }

/-! ## Protocol session state and in-session operations

The stateful `ISECNetProtocol` object is modelled by `SessionState`.
Each public operation becomes a function of the state and of the peer's
reply (`none` models a receive timeout, a socket error, or an empty read);
it returns the new state, the operation's result, and the list of frames
written to the socket. -/

/-- The mutable fields of `ISECNetProtocol` that the in-session operations
read or write (`hasWriter` stands for `self.writer is not None`). -/
structure SessionState where
  isConnected : Bool
  isAuthenticated : Bool
  hasWriter : Bool
  sourceId : List Nat
  password : String
  isIpReceiver : Bool
  partitionsEnabledCache : Option Bool
deriving DecidableEq

/-- `ISECNetProtocol._send_and_receive` with `retries = 0` (as every
in-session operation calls it): nothing is written when the writer is
gone; otherwise the frame is written and the peer's reply (or `none` on
timeout or socket error) comes back.  Returns (reply, frames written). -/
def sendAndReceive (st : SessionState) (cmd : List Nat)
    (reply : Option (List Nat)) : Option (List Nat) × List (List Nat) :=
  if !st.hasWriter then (none, [])
  else (reply, [cmd])

/-- Result of a command-style operation: new state, (success, message),
and the frames written. -/
structure OpResult where
  state : SessionState
  ok : Bool
  message : String
  sent : List (List Nat)
deriving DecidableEq

/-- Result of `get_status`: new state, (success, status), frames written. -/
structure StatusOpResult where
  state : SessionState
  ok : Bool
  status : AlarmStatus
  sent : List (List Nat)
deriving DecidableEq

/-- `_build_status_cmd` (V2 ALARM_PANEL_STATUS = 0x0B4A). -/
def buildStatusCmd (sourceId : List Nat) : List Nat :=
  buildPacket sourceId 0x0B4A []

/-- `_build_arm_cmd`: V2 SYSTEM_ARM_DISARM (0x401E) with payload
`[partition byte, operation]` where the partition byte is 0xFF for "all"
and `index + 1` otherwise. -/
def buildArmCmd (sourceId : List Nat) (operation : Nat)
    (partitionIndex : Option Nat) : List Nat :=
  buildPacket sourceId 0x401E
    ((match partitionIndex with
      | none => [0xFF]
      | some i => [i + 1]) ++ [operation])

/-- `_build_get_mac_cmd` (GET_MAC = 0x3FAA). -/
def buildGetMacCmd (sourceId : List Nat) : List Nat :=
  buildPacket sourceId 0x3FAA [0]

/-- `"pat" in s` of Python, as used on response messages: `pat` occurs as
a contiguous substring of `s`. -/
def containsSubstr (s pat : String) : Bool :=
  (List.range (s.data.length + 1)).any
    (fun k => pat.data.isPrefixOf (s.data.drop k))

/-- The partitions_enabled instance-cache update performed inside
`_parse_isecv1_status_response` (line `self._partitions_enabled =
bool(partition_enabled)`): it happens only on the standard-panel branch of
a valid, ≥ 40-byte status reply. -/
def v1StatusCacheUpdate (response : List Nat) (old : Option Bool) :
    Option Bool :=
  let parsed := parseIsecV1Response response
  if !parsed.1 || parsed.2.length < 10 then old
  else if parsed.2.length < 40 then old
  else if isEletrificadorModel (parsed.2.getD 19 0) then old
  else some (parsed.2.getD 21 0 != 0)

/-- `ISECNetProtocol.get_status`. -/
def getStatusOp (st : SessionState) (reply : Option (List Nat)) :
    StatusOpResult :=
  if !st.isAuthenticated then ⟨st, false, {}, []⟩
  else if st.isIpReceiver then
    let cmd := buildIsecV1StatusCmd st.password
    let sr := sendAndReceive st cmd reply
    match sr.1 with
    | none => ⟨st, false, {}, sr.2⟩
    | some r =>
        ⟨{ st with partitionsEnabledCache :=
             v1StatusCacheUpdate r st.partitionsEnabledCache },
         true, parseIsecV1StatusResponse r, sr.2⟩
  else
    let cmd := buildStatusCmd st.sourceId
    let sr := sendAndReceive st cmd reply
    match sr.1 with
    | none => ⟨st, false, {}, sr.2⟩
    | some r =>
        let pr := parseCommandResponse r
        if !pr.1 then ⟨st, false, {}, sr.2⟩
        else ⟨st, true, parseStatusResponse r, sr.2⟩

/-- The V1 stay flag of `ISECNetProtocol.arm`: `stay = (mode == "stay")`. -/
def v1StayFlagForMode (mode : String) : Bool :=
  mode == "stay"

/-- The V2 operation of `ISECNetProtocol.arm`:
`SYSTEM_ARM if mode == "away" else ARM_STAY`. -/
def v2ArmOperationForMode (mode : String) : Nat :=
  if mode == "away" then 1 else 2

/-- The V2 arm error-message table of `ISECNetProtocol.arm`. -/
def v2ArmErrorMessage (errorCode : Nat) : String :=
  if errorCode = 1 then "Zone open"
  else if errorCode = 2 then "Battery low"
  else if errorCode = 3 then "No permission"
  else "Arm failed: " ++ toString errorCode

/-- `ISECNetProtocol.arm`.  `partitionsEnabledArg` is the caller-provided
`partitions_enabled`; when absent the instance cache is used.  `reply1` is
the peer's answer to the first frame, `reply2` to the retry (V1 only). -/
def armOp (st : SessionState) (mode : String) (partitionIndex : Option Nat)
    (partitionsEnabledArg : Option Bool)
    (reply1 reply2 : Option (List Nat)) : OpResult :=
  if !st.isAuthenticated then ⟨st, false, "Not authenticated", []⟩
  else
    let effEnabled :=
      match partitionsEnabledArg with
      | some b => some b
      | none => st.partitionsEnabledCache
    if st.isIpReceiver then
      let stay := v1StayFlagForMode mode
      let effPartition := if effEnabled == some false then none else partitionIndex
      let cmd := buildIsecV1ArmCmd st.password effPartition stay
      let sr := sendAndReceive st cmd reply1
      match sr.1 with
      | none => ⟨st, true, "Armed (" ++ mode ++ ") - command sent", sr.2⟩
      | some r =>
        let pr := parseIsecV1CommandResponse r
        if !pr.1 && containsSubstr pr.2 "No partitions" && effPartition.isSome then
          let st2 := { st with partitionsEnabledCache := some false }
          let cmd2 := buildIsecV1ArmCmd st.password none stay
          let sr2 := sendAndReceive st2 cmd2 reply2
          match sr2.1 with
          | none => ⟨st2, true, "Armed (" ++ mode ++ ") - command sent", sr.2 ++ sr2.2⟩
          | some r2 =>
            let pr2 := parseIsecV1CommandResponse r2
            if pr2.1 then ⟨st2, true, "Armed (" ++ mode ++ ")", sr.2 ++ sr2.2⟩
            else ⟨st2, false, "Arm command failed: " ++ pr2.2, sr.2 ++ sr2.2⟩
        else if pr.1 then ⟨st, true, "Armed (" ++ mode ++ ")", sr.2⟩
        else ⟨st, false, "Arm command failed: " ++ pr.2, sr.2⟩
    else
      let cmd := buildArmCmd st.sourceId (v2ArmOperationForMode mode) partitionIndex
      let sr := sendAndReceive st cmd reply1
      match sr.1 with
      | none => ⟨st, false, "No response", sr.2⟩
      | some r =>
        let pr := parseCommandResponse r
        if pr.1 then ⟨st, true, "Armed (" ++ mode ++ ")", sr.2⟩
        else ⟨st, false, v2ArmErrorMessage pr.2, sr.2⟩

/-- `ISECNetProtocol.disarm`. -/
def disarmOp (st : SessionState) (partitionIndex : Option Nat)
    (partitionsEnabledArg : Option Bool)
    (reply1 reply2 : Option (List Nat)) : OpResult :=
  if !st.isAuthenticated then ⟨st, false, "Not authenticated", []⟩
  else
    let effEnabled :=
      match partitionsEnabledArg with
      | some b => some b
      | none => st.partitionsEnabledCache
    if st.isIpReceiver then
      let effPartition := if effEnabled == some false then none else partitionIndex
      let cmd := buildIsecV1DisarmCmd st.password effPartition
      let sr := sendAndReceive st cmd reply1
      match sr.1 with
      | none => ⟨st, false, "No response", sr.2⟩
      | some r =>
        let pr := parseIsecV1CommandResponse r
        if !pr.1 && containsSubstr pr.2 "No partitions" && effPartition.isSome then
          let st2 := { st with partitionsEnabledCache := some false }
          let cmd2 := buildIsecV1DisarmCmd st.password none
          let sr2 := sendAndReceive st2 cmd2 reply2
          match sr2.1 with
          | none => ⟨st2, false, "No response on retry", sr.2 ++ sr2.2⟩
          | some r2 =>
            let pr2 := parseIsecV1CommandResponse r2
            if pr2.1 then ⟨st2, true, "Disarmed", sr.2 ++ sr2.2⟩
            else ⟨st2, false, "Disarm command failed: " ++ pr2.2, sr.2 ++ sr2.2⟩
        else if pr.1 then ⟨st, true, "Disarmed", sr.2⟩
        else ⟨st, false, "Disarm command failed: " ++ pr.2, sr.2⟩
    else
      let cmd := buildArmCmd st.sourceId 0 partitionIndex
      let sr := sendAndReceive st cmd reply1
      match sr.1 with
      | none => ⟨st, false, "No response", sr.2⟩
      | some r =>
        let pr := parseCommandResponse r
        if pr.1 then ⟨st, true, "Disarmed", sr.2⟩
        else ⟨st, false, "Disarm failed: " ++ toString pr.2, sr.2⟩

/-- `ISECNetProtocol.shock_on`: SYSTEM_ARM with partition index 1. -/
def shockOnOp (st : SessionState) (reply : Option (List Nat)) : OpResult :=
  if !st.isAuthenticated then ⟨st, false, "Not authenticated", []⟩
  else
    let cmd := buildArmCmd st.sourceId 1 (some 1)
    let sr := sendAndReceive st cmd reply
    match sr.1 with
    | none => ⟨st, false, "No response", sr.2⟩
    | some r =>
      let pr := parseCommandResponse r
      if pr.1 then ⟨st, true, "Shock turned ON", sr.2⟩
      else ⟨st, false, "Shock ON failed: error_code=" ++ toString pr.2, sr.2⟩

/-- `ISECNetProtocol.shock_off`: SYSTEM_DISARM with partition index 1. -/
def shockOffOp (st : SessionState) (reply : Option (List Nat)) : OpResult :=
  if !st.isAuthenticated then ⟨st, false, "Not authenticated", []⟩
  else
    let cmd := buildArmCmd st.sourceId 0 (some 1)
    let sr := sendAndReceive st cmd reply
    match sr.1 with
    | none => ⟨st, false, "No response", sr.2⟩
    | some r =>
      let pr := parseCommandResponse r
      if pr.1 then ⟨st, true, "Shock turned OFF", sr.2⟩
      else ⟨st, false, "Shock OFF failed: error_code=" ++ toString pr.2, sr.2⟩

/-- `ISECNetProtocol.eletrificador_alarm_on`: SYSTEM_ARM, partition 0. -/
def eletrificadorAlarmOnOp (st : SessionState) (reply : Option (List Nat)) :
    OpResult :=
  if !st.isAuthenticated then ⟨st, false, "Not authenticated", []⟩
  else
    let cmd := buildArmCmd st.sourceId 1 (some 0)
    let sr := sendAndReceive st cmd reply
    match sr.1 with
    | none => ⟨st, false, "No response", sr.2⟩
    | some r =>
      let pr := parseCommandResponse r
      if pr.1 then ⟨st, true, "Eletrificador ALARM turned ON", sr.2⟩
      else ⟨st, false, "Eletrificador ALARM ON failed: error_code=" ++ toString pr.2, sr.2⟩

/-- `ISECNetProtocol.eletrificador_alarm_off`: SYSTEM_DISARM, partition 0. -/
def eletrificadorAlarmOffOp (st : SessionState) (reply : Option (List Nat)) :
    OpResult :=
  if !st.isAuthenticated then ⟨st, false, "Not authenticated", []⟩
  else
    let cmd := buildArmCmd st.sourceId 0 (some 0)
    let sr := sendAndReceive st cmd reply
    match sr.1 with
    | none => ⟨st, false, "No response", sr.2⟩
    | some r =>
      let pr := parseCommandResponse r
      if pr.1 then ⟨st, true, "Eletrificador ALARM turned OFF", sr.2⟩
      else ⟨st, false, "Eletrificador ALARM OFF failed: error_code=" ++ toString pr.2, sr.2⟩

/-- `ISECNetProtocol.get_mac`: on success the message carries the MAC
rendered as colon-separated uppercase hex of bytes 9..end-1. -/
def getMacOp (st : SessionState) (reply : Option (List Nat)) : OpResult :=
  if !st.isAuthenticated then ⟨st, false, "", []⟩
  else
    let cmd := buildGetMacCmd st.sourceId
    let sr := sendAndReceive st cmd reply
    match sr.1 with
    | none => ⟨st, false, "", sr.2⟩
    | some r =>
      if r.length ≤ 10 then ⟨st, false, "", sr.2⟩
      else
        let mac := String.intercalate ":" (((r.drop 9).dropLast).map hexByte02)
        ⟨st, true, mac, sr.2⟩

/-! ## Command facade (`app/api/v1/alarm.py`) -/

/-- The `ArmMode` enum of the facade: away (total) and home (stay). -/
inductive ArmMode where
  | away
  | home
deriving DecidableEq

/-- The string value of each `ArmMode` member, which `arm_partition`
passes to the protocol layer as `mode=request.mode.value`. -/
def ArmMode.value : ArmMode → String
  | .away => "away"
  | .home => "home"

/-- The `new_status` the facade reports after a successful arm
(`"armed_away" if request.mode == ArmMode.AWAY else "armed_stay"`; the
same expression computes `expected_mode` in the verify path). -/
def facadeNewStatus : ArmMode → String
  | .away => "armed_away"
  | .home => "armed_stay"

/-- The response timeout of the V1 arm send, in seconds
(`self._send_and_receive(cmd, timeout=3.0)`). -/
def v1ArmResponseTimeoutSecs : Nat := 3

/-- The facade's delay before the verifying status read, in milliseconds
(`await asyncio.sleep(0.5)`). -/
def armVerifySleepMs : Nat := 500

/-- The facade's trigger for the verify path:
`if success and "command sent" in message`. -/
def facadeTriggersArmVerify (ok : Bool) (message : String) : Bool :=
  ok && containsSubstr message "command sent"

/-- An entry of the facade's structured open-zones failure
(`OpenZoneInfo(index=..., name=..., friendly_name=...)`). -/
structure OpenZoneInfo where
  index : Nat
  name : String
  friendlyName : Option String
deriving DecidableEq

/-- The generated zone display name `f"Zona {index + 1:02d}"`. -/
def zoneName (index : Nat) : String :=
  "Zona " ++ (if index + 1 < 10 then "0" ++ toString (index + 1)
              else toString (index + 1))

/-- Outcome of the facade's post-arm verification block. -/
inductive ArmVerifyOutcome where
  | armedVerified (message : String)
  | openZonesFailure (zones : List OpenZoneInfo)
  | notAccepted
  | keptUnverified
deriving DecidableEq

/-- The verification block of `arm_partition` that runs after an
unconfirmed arm: with the verifying status read's outcome in hand, the
facade reports verified success when the panel shows armed, an
open-zones failure when it is still disarmed with open zones (attaching
the cached friendly names), "not accepted" when disarmed with no open
zone, and otherwise keeps the unverified success. -/
def facadeArmVerify (mode : ArmMode) (verifyOk : Bool) (status : AlarmStatus)
    (friendlyNames : Nat → Option String) : ArmVerifyOutcome :=
  if verifyOk then
    if status.isArmed || (status.armMode == "armed_away"
        || status.armMode == "armed_stay") then
      .armedVerified ("Armed (" ++ mode.value ++ ")")
    else if status.armMode == "disarmed" then
      let openList := status.zones.filter (fun z => z.isOpen)
      if !openList.isEmpty then
        .openZonesFailure (openList.map (fun z =>
          { index := z.index
            name := zoneName z.index
            friendlyName := friendlyNames z.index }))
      else .notAccepted
    else .keptUnverified
  else .keptUnverified

/-- The effect of one facade arm call on the caches: `arm_partition` reads
the durable `partitions_enabled` cache and passes it to the protocol as
`partitions_enabled=cached_partitions_enabled`; it never calls
`state_manager.set_device_partitions_enabled`, so the durable cache is
unchanged by the call (only the status endpoints write it). -/
structure FacadeArmRun where
  op : OpResult
  durableAfter : Option Bool
deriving DecidableEq

/-- One facade arm call: durable cache read, protocol arm, durable cache
left as it was. -/
def facadeArmRun (durable : Option Bool) (st : SessionState) (mode : ArmMode)
    (partitionIndex : Option Nat) (reply1 reply2 : Option (List Nat)) :
    FacadeArmRun :=
  { op := armOp st mode.value partitionIndex durable reply1 reply2
    durableAfter := durable }

/-- One facade disarm call (`disarm_partition` has the same cache
discipline as `arm_partition`). -/
def facadeDisarmRun (durable : Option Bool) (st : SessionState)
    (partitionIndex : Option Nat) (reply1 reply2 : Option (List Nat)) :
    FacadeArmRun :=
  { op := disarmOp st partitionIndex durable reply1 reply2
    durableAfter := durable }

/-! ## Theorems for the session and facade claims -/

/-- A live, authenticated V1 (IP receiver) session used as concrete input. -/
def liveV1Session : SessionState :=
  { isConnected := true
    isAuthenticated := true
    hasWriter := true
    sourceId := [0, 0]
    password := "1234"
    isIpReceiver := true
    partitionsEnabledCache := some true }

/-- C1 (code evaluated at the failing input): for the facade mode string
"home", the V2 path builds operation ARM_STAY (= 2) as claimed, but the V1
path's stay flag `mode == "stay"` is false, so the arm frame for mode
"home" carries no 0x50 stay marker — it is a total arm — while the facade
itself expects "home" to produce armed_stay. -/
theorem arm_home_mode_divergence :
    v2ArmOperationForMode ArmMode.home.value = 2
    ∧ v2ArmOperationForMode ArmMode.away.value = 1
    ∧ v1StayFlagForMode ArmMode.home.value = false
    ∧ (facadeArmRun (some true) liveV1Session ArmMode.home (some 0) none none).op.sent
        = [buildIsecV1ArmCmd "1234" (some 0) false]
    ∧ v1ArmCommandBytes (some 0) false true = [0x41, 0x41]
    ∧ v1ArmCommandBytes (some 0) true true = [0x41, 0x41, 0x50]
    ∧ facadeNewStatus ArmMode.home = "armed_stay" := by
  decide

/-- C2: a V1 arm whose first reply never arrives within the 3 s timeout
returns success with a "command sent" message and leaves the session
unchanged; the facade's trigger fires on that message, waits 500 ms, and
after the verifying status read reports disarmed with open zones it
returns the structured open-zones failure listing each open zone's index
with its cached friendly name. -/
theorem arm_unverified_then_open_zones
    (st : SessionState) (mode : ArmMode)
    (hauth : st.isAuthenticated = true)
    (hip : st.isIpReceiver = true)
    (hsock : st.hasWriter = true)
    (pi : Option Nat) (pe : Option Bool)
    (status : AlarmStatus) (fn : Nat → Option String)
    (hnotarmed : status.isArmed = false)
    (hdis : status.armMode = "disarmed")
    (hopen : status.zones.filter (fun z => z.isOpen) ≠ []) :
    (armOp st mode.value pi pe none none).ok = true
    ∧ (armOp st mode.value pi pe none none).message
        = "Armed (" ++ mode.value ++ ") - command sent"
    ∧ facadeTriggersArmVerify (armOp st mode.value pi pe none none).ok
        (armOp st mode.value pi pe none none).message = true
    ∧ (armOp st mode.value pi pe none none).state = st
    ∧ v1ArmResponseTimeoutSecs = 3
    ∧ armVerifySleepMs = 500
    ∧ facadeArmVerify mode true status fn
        = .openZonesFailure ((status.zones.filter (fun z => z.isOpen)).map
            (fun z => { index := z.index
                        name := zoneName z.index
                        friendlyName := fn z.index })) := by
  have harm : armOp st mode.value pi pe none none =
      ⟨st, true, "Armed (" ++ mode.value ++ ") - command sent",
       [buildIsecV1ArmCmd st.password
          (if ((match pe with
                | some b => some b
                | none => st.partitionsEnabledCache) == some false) then none
           else pi)
          (v1StayFlagForMode mode.value)]⟩ := by
    simp [armOp, hauth, hip, sendAndReceive, hsock]
  refine ⟨by rw [harm], by rw [harm], ?_, by rw [harm], rfl, rfl, ?_⟩
  · rw [harm]
    cases mode <;> simp [facadeTriggersArmVerify] <;> decide
  · have hfirst : (status.isArmed || (status.armMode == "armed_away"
        || status.armMode == "armed_stay")) = false := by
      rw [hnotarmed, hdis]
      decide
    have hsecond : (status.armMode == "disarmed") = true := by
      rw [hdis]
      decide
    have hne : (status.zones.filter (fun z => z.isOpen)).isEmpty = false := by
      cases hz : status.zones.filter (fun z => z.isOpen) with
      | nil => exact absurd hz hopen
      | cons a l => rfl
    simp [facadeArmVerify, hfirst, hsecond, hne]

/-- A status record reporting disarmed with zone 3 open. -/
def disarmedOpenStatus : AlarmStatus :=
  { armMode := "disarmed"
    zones := [{ index := 3, triggered := false, isOpen := true, state := "open" }] }

/-- Friendly-name cache holding "Front Door" for zone 3. -/
def frontDoorNames : Nat → Option String :=
  fun i => if i = 3 then some "Front Door" else none

/-- Witness for C2 on the live session with zone 3 open. -/
theorem arm_unverified_then_open_zones_witness :
    (armOp liveV1Session ArmMode.away.value none none none none).ok = true
    ∧ facadeArmVerify ArmMode.away true disarmedOpenStatus frontDoorNames
        = .openZonesFailure
            [{ index := 3, name := "Zona 04", friendlyName := some "Front Door" }] := by
  have h := arm_unverified_then_open_zones liveV1Session ArmMode.away rfl rfl rfl
    none none disarmedOpenStatus frontDoorNames rfl rfl (by decide)
  refine ⟨h.1, ?_⟩
  rw [h.2.2.2.2.2.2]
  decide

/-- Session state with unknown `partitions_enabled`, used as concrete
input for the partition-learning claims. -/
def unknownCacheSession : SessionState :=
  { isConnected := true
    isAuthenticated := true
    hasWriter := true
    sourceId := [0, 0]
    password := "1234"
    isIpReceiver := true
    partitionsEnabledCache := none }

/-- A 46-byte reply (classified as success, like a partial status dump). -/
def reply46 : List Nat := List.replicate 46 0

/-- C3 counterexample: with both caches unknown, a V1 arm with partition
index 0 answered by 0xE3 does send first with and then once without the
partition byte and records `false` in the protocol instance cache — but
the durable cache (state_manager) is NOT written: it still holds `none`
after the call, refuting "partitions_enabled := false is recorded in the
durable cache (C5)". -/
theorem partitions_learning_claim_false :
    (facadeArmRun none unknownCacheSession ArmMode.away (some 0)
        (some [0, 0, 0xE3]) (some reply46)).op.sent
      = [buildIsecV1ArmCmd "1234" (some 0) false,
         buildIsecV1ArmCmd "1234" none false]
    ∧ (facadeArmRun none unknownCacheSession ArmMode.away (some 0)
        (some [0, 0, 0xE3]) (some reply46)).op.state.partitionsEnabledCache
      = some false
    ∧ ¬ (facadeArmRun none unknownCacheSession ArmMode.away (some 0)
        (some [0, 0, 0xE3]) (some reply46)).durableAfter = some false := by
  decide

/-- C3 amended: for every V1 arm or disarm with `partitions_enabled`
unknown in both caches and a partition index supplied, the first frame
carries the partition byte; if the reply classifies as "No partitions"
(0xE3), `false` is recorded in the protocol session's in-memory cache
(not in the durable C5 cache, which is unchanged) and the command is
retried exactly once without the partition byte; if the durable cache
already holds `false`, the partition byte is omitted on the first send. -/
theorem partitions_learning (st : SessionState) (mode : ArmMode) (k : Nat)
    (hauth : st.isAuthenticated = true) (hip : st.isIpReceiver = true)
    (hsock : st.hasWriter = true) (hcache : st.partitionsEnabledCache = none)
    (r1 : List Nat)
    (hr1 : parseIsecV1CommandResponse r1 = (false, "No partitions"))
    (r2 : Option (List Nat)) :
    ((facadeArmRun none st mode (some k) (some r1) r2).op.sent
        = [buildIsecV1ArmCmd st.password (some k) (v1StayFlagForMode mode.value),
           buildIsecV1ArmCmd st.password none (v1StayFlagForMode mode.value)]
      ∧ (facadeArmRun none st mode (some k) (some r1) r2).op.state.partitionsEnabledCache
          = some false
      ∧ (facadeArmRun none st mode (some k) (some r1) r2).durableAfter = none)
    ∧ ((facadeDisarmRun none st (some k) (some r1) r2).op.sent
        = [buildIsecV1DisarmCmd st.password (some k),
           buildIsecV1DisarmCmd st.password none]
      ∧ (facadeDisarmRun none st (some k) (some r1) r2).op.state.partitionsEnabledCache
          = some false
      ∧ (facadeDisarmRun none st (some k) (some r1) r2).durableAfter = none)
    ∧ ((facadeArmRun (some false) st mode (some k) (some r1) r2).op.sent.headD []
        = buildIsecV1ArmCmd st.password none (v1StayFlagForMode mode.value)
      ∧ (facadeDisarmRun (some false) st (some k) (some r1) r2).op.sent.headD []
        = buildIsecV1DisarmCmd st.password none) := by
  have hcs : containsSubstr "No partitions" "No partitions" = true := by decide
  refine ⟨?_, ?_, ?_, ?_⟩
  · cases r2 with
    | none =>
        simp [facadeArmRun, armOp, hauth, hip, hcache, sendAndReceive, hsock, hr1, hcs]
    | some v =>
        by_cases hc : (parseIsecV1CommandResponse v).1 = true <;>
          simp [facadeArmRun, armOp, hauth, hip, hcache, sendAndReceive, hsock, hr1,
            hcs, hc]
  · cases r2 with
    | none =>
        simp [facadeDisarmRun, disarmOp, hauth, hip, hcache, sendAndReceive, hsock,
          hr1, hcs]
    | some v =>
        by_cases hc : (parseIsecV1CommandResponse v).1 = true <;>
          simp [facadeDisarmRun, disarmOp, hauth, hip, hcache, sendAndReceive, hsock,
            hr1, hcs, hc]
  · simp [facadeArmRun, armOp, hauth, hip, sendAndReceive, hsock, hr1, hcs]
  · simp [facadeDisarmRun, disarmOp, hauth, hip, sendAndReceive, hsock, hr1, hcs]

/-- Witness for C3 amended on the concrete 0xE3 exchange. -/
theorem partitions_learning_witness :
    parseIsecV1CommandResponse [0, 0, 0xE3] = (false, "No partitions")
    ∧ (facadeDisarmRun none unknownCacheSession (some 0)
          (some [0, 0, 0xE3]) (some reply46)).op.sent
        = [buildIsecV1DisarmCmd "1234" (some 0),
           buildIsecV1DisarmCmd "1234" none] := by
  have h := partitions_learning unknownCacheSession ArmMode.away 0 rfl rfl rfl
    rfl [0, 0, 0xE3] (by decide) (some reply46)
  exact ⟨by decide, h.2.1.1⟩

/-- C5 counterexample: a receive timeout during `get_status` on a live
authenticated session fails the operation but does NOT transition the
session to disconnected — the state is unchanged, so it is still
authenticated and still holds the writer. -/
theorem timeout_disconnect_claim_false :
    (getStatusOp unknownCacheSession none).ok = false
    ∧ (getStatusOp unknownCacheSession none).state = unknownCacheSession
    ∧ unknownCacheSession.isAuthenticated = true
    ∧ unknownCacheSession.hasWriter = true := by
  decide

/-- C5 amended: on both dialects, a receive timeout or socket error
(modelled by `none`) makes `get_status` and `disarm` fail — and `arm`
fail on the cloud (V2) dialect, while a V1 `arm` instead returns the
unverified "command sent" success; in every case the session state is
unchanged — still authenticated, writer still held — rather than
transitioning to disconnected.  Commands are only ever issued (frames
only sent) from an authenticated session. -/
theorem timeout_failure_semantics (st : SessionState)
    (hauth : st.isAuthenticated = true) (hsock : st.hasWriter = true)
    (pi : Option Nat) (pe : Option Bool) (mode : ArmMode) :
    ((getStatusOp st none).ok = false ∧ (getStatusOp st none).state = st)
    ∧ ((disarmOp st pi pe none none).ok = false
      ∧ (disarmOp st pi pe none none).message = "No response"
      ∧ (disarmOp st pi pe none none).state = st)
    ∧ ((armOp st mode.value pi pe none none).state = st
      ∧ (st.isIpReceiver = true →
          (armOp st mode.value pi pe none none).ok = true
          ∧ (armOp st mode.value pi pe none none).message
              = "Armed (" ++ mode.value ++ ") - command sent")
      ∧ (st.isIpReceiver = false →
          (armOp st mode.value pi pe none none).ok = false
          ∧ (armOp st mode.value pi pe none none).message = "No response"))
    ∧ (∀ st' : SessionState, st'.isAuthenticated = false →
        (getStatusOp st' none).sent = []
        ∧ (armOp st' mode.value pi pe none none).sent = []
        ∧ (disarmOp st' pi pe none none).sent = []) := by
  refine ⟨?_, ?_, ⟨?_, ?_, ?_⟩, ?_⟩
  · cases hip : st.isIpReceiver <;>
      (constructor <;> simp [getStatusOp, hauth, hip, sendAndReceive, hsock])
  · cases hip : st.isIpReceiver <;>
      (refine ⟨?_, ?_, ?_⟩ <;> simp [disarmOp, hauth, hip, sendAndReceive, hsock])
  · cases hip : st.isIpReceiver <;>
      simp [armOp, hauth, hip, sendAndReceive, hsock]
  · intro hip
    constructor <;> simp [armOp, hauth, hip, sendAndReceive, hsock]
  · intro hip
    constructor <;> simp [armOp, hauth, hip, sendAndReceive, hsock]
  · intro st' h'
    refine ⟨?_, ?_, ?_⟩ <;> simp [getStatusOp, armOp, disarmOp, h']

/-- A live, authenticated cloud (V2) session. -/
def liveCloudSession : SessionState :=
  { isConnected := true
    isAuthenticated := true
    hasWriter := true
    sourceId := [0xAA, 0xBB]
    password := "1234"
    isIpReceiver := false
    partitionsEnabledCache := none }

/-- Witness for C5 amended on a live V1 session and a live V2 session. -/
theorem timeout_failure_semantics_witness :
    (getStatusOp unknownCacheSession none).ok = false
    ∧ (disarmOp unknownCacheSession none none none none).message = "No response"
    ∧ (armOp unknownCacheSession ArmMode.away.value none none none none).ok = true
    ∧ (getStatusOp liveCloudSession none).ok = false
    ∧ (disarmOp liveCloudSession none none none none).message = "No response"
    ∧ (armOp liveCloudSession ArmMode.away.value none none none none).ok = false := by
  have h1 := timeout_failure_semantics unknownCacheSession rfl rfl none none
    ArmMode.away
  have h2 := timeout_failure_semantics liveCloudSession rfl rfl none none
    ArmMode.away
  exact ⟨h1.1.1, h1.2.1.2.1, (h1.2.2.1.2.1 rfl).1,
    h2.1.1, h2.2.1.2.1, (h2.2.2.1.2.2 rfl).1⟩

/-- C10: every public command operation invoked while the session is not
authenticated fails immediately with its "not authenticated" result,
sends nothing on the socket, and leaves the session state unchanged. -/
theorem unauthenticated_ops_noop (st : SessionState)
    (h : st.isAuthenticated = false) (mode : String) (pi : Option Nat)
    (pe : Option Bool) (r1 r2 : Option (List Nat)) :
    getStatusOp st r1 = ⟨st, false, {}, []⟩
    ∧ armOp st mode pi pe r1 r2 = ⟨st, false, "Not authenticated", []⟩
    ∧ disarmOp st pi pe r1 r2 = ⟨st, false, "Not authenticated", []⟩
    ∧ shockOnOp st r1 = ⟨st, false, "Not authenticated", []⟩
    ∧ shockOffOp st r1 = ⟨st, false, "Not authenticated", []⟩
    ∧ eletrificadorAlarmOnOp st r1 = ⟨st, false, "Not authenticated", []⟩
    ∧ eletrificadorAlarmOffOp st r1 = ⟨st, false, "Not authenticated", []⟩
    ∧ getMacOp st r1 = ⟨st, false, "", []⟩ := by
  simp [getStatusOp, armOp, disarmOp, shockOnOp, shockOffOp,
    eletrificadorAlarmOnOp, eletrificadorAlarmOffOp, getMacOp, h]

/-- A disconnected, unauthenticated session. -/
def deadSession : SessionState :=
  { isConnected := false
    isAuthenticated := false
    hasWriter := false
    sourceId := [0, 0]
    password := ""
    isIpReceiver := false
    partitionsEnabledCache := none }

/-- Witness for C10 on the dead session. -/
theorem unauthenticated_ops_noop_witness :
    getStatusOp deadSession none = ⟨deadSession, false, {}, []⟩
    ∧ getMacOp deadSession none = ⟨deadSession, false, "", []⟩ := by
  have h := unauthenticated_ops_noop deadSession rfl "away" none none none none
  exact ⟨h.1, h.2.2.2.2.2.2.2⟩

end Guardian
